import Mathlib

/-!
# Verification of the A2A mock agent executor

Shallow embedding of `src/scripts/proper_a2a_agent.py`: the data model of the
events the `SimpleAgentExecutor` publishes to its `EventQueue`, the `execute`
coroutine (as the ordered list of events it enqueues), and the `cancel`
coroutine.  Progress values are the exact decimal literals of the source,
embedded as rationals (the source performs no floating-point arithmetic on
them, only emits the literals, so their ordering is preserved exactly).

Fault injection: the Python `execute` contains no `try`/`except`, so any
exception raised at an `await` inside the streaming loop propagates out of the
method, aborting the remaining statements while the already-enqueued events
stay on the queue.  We model this by a parameter `failAt : Option Nat`: when
`failAt = some i` the production of streaming step `i` raises.  The returned
`Bool` is `true` iff the body ran to completion (no exception escaped).
-/

/-- A status payload of a `task-status-update` event, as built by the dict
literals in `execute` (fields `state`, `progress`, `message`). -/
structure TaskStatus where
  state : String
  progress : ℚ
  message : String
deriving DecidableEq, Repr

/-- An artifact payload of an `artifact-update` event, as built by the dict
literal in the `elif response["type"] == "artifact"` branch. -/
structure ArtifactData where
  id : String
  name : String
  type : String
  content : String
deriving DecidableEq, Repr

/-- A lifecycle event enqueued on the `EventQueue`.  The source enqueues three
shapes: `task-status-update` dicts and `artifact-update` dicts (both carrying
`taskId`), and agent text `Message` objects built by the a2a-sdk helper
`new_agent_text_message` (whose `task_id` field is optional). -/
inductive Event where
  | taskStatusUpdate (taskId : String) (status : TaskStatus)
  | agentTextMessage (taskId : Option String) (text : String)
  | artifactUpdate (taskId : String) (artifact : ArtifactData)
deriving DecidableEq, Repr

/-- The a2a-sdk helper `new_agent_text_message(text)`.  The call sites in the
source pass only the text; the helper's optional `task_id` parameter defaults
to `None`, so the resulting agent `Message` carries no task id. -/
def new_agent_text_message (text : String) : Event :=
  Event.agentTextMessage none text

/-- The message object optionally carried by the request: either a `content`
string, or a list of parts each optionally holding a `text` attribute. -/
inductive RequestMessage where
  | content (s : String)
  | parts (ps : List (Option String))
deriving DecidableEq, Repr

/-- The slice of the a2a `RequestContext` that `execute` reads: `request_id`
and the optional request message. -/
structure RequestContext where
  request_id : String
  requestMessage : Option RequestMessage
deriving DecidableEq, Repr

/-- A part contributes its text when the attribute is present and truthy
(Python `if hasattr(part, "text") and part.text`), i.e. present and
non-empty. -/
def truthyText (p : Option String) : Option String :=
  match p with
  | some s => if s.isEmpty then none else some s
  | none => none

/-- The `message` local computed at the top of `execute` (lines 42-54):
default `"Hello World from A2A Agent!"`, overridden by the request message
`content` when present, else by the space-join of the truthy part texts when
the parts list is present and yields at least one text. -/
def contextMessage (ctx : RequestContext) : String :=
  match ctx.requestMessage with
  | none => "Hello World from A2A Agent!"
  | some (RequestMessage.content s) => s
  | some (RequestMessage.parts ps) =>
      let textParts := ps.filterMap truthyText
      if textParts.isEmpty then "Hello World from A2A Agent!"
      else String.intercalate " " textParts

/-- One entry of the `streaming_responses` list in `execute`. -/
inductive StreamItem where
  | message (content : String)
  | progress (progress : ℚ) (message : String)
  | artifact (content : String)
deriving DecidableEq, Repr

/-- The `streaming_responses` literal of `execute` (lines 87-96), parametrised
by the `message` local embedded in two of its strings. -/
def streaming_responses (message : String) : List StreamItem :=
  [StreamItem.message "🔍 I\x27m analyzing your request and gathering relevant context...",
   StreamItem.progress 0.5 "Processing data...",
   StreamItem.message "📊 Found relevant information. Generating response...",
   StreamItem.progress 0.7 "Crafting response...",
   StreamItem.message ("✨ **Response to \x27" ++ message ++ "\x27:**\n\nThis is a comprehensive answer that demonstrates the A2A protocol streaming capabilities. The agent can:\n\n• Process complex requests\n• Provide real-time updates\n• Stream responses progressively\n• Handle various message types"),
   StreamItem.artifact "📄 Generated artifact: analysis_report.md",
   StreamItem.progress 0.9 "Finalizing response...",
   StreamItem.message "✅ Task completed successfully! The agent has processed your request and provided a detailed response with streaming updates."]

/-- The event enqueued by the loop body of `execute` (lines 98-131) for the
entry `r` at index `i` of `streaming_responses`. -/
def stepEvent (request_id message : String) (i : Nat) (r : StreamItem) : Event :=
  match r with
  | StreamItem.message c => new_agent_text_message c
  | StreamItem.progress p m =>
      Event.taskStatusUpdate request_id { state := "running", progress := p, message := m }
  | StreamItem.artifact _ =>
      Event.artifactUpdate request_id
        { id := ("artifact_" ++ toString i), name := "analysis_report.md", type := "text/markdown",
          content := "# Analysis Report\n\nRequest: " ++ message ++ "\n\nThis is a mock artifact generated by the A2A agent to demonstrate artifact streaming capabilities." }

/-- The `for i, response in enumerate(streaming_responses)` loop: each
iteration awaits a sleep (simulated step work) then enqueues `stepEvent`.
When `failAt = some i`, producing step `i` raises; the uncaught exception
aborts the loop, keeping the events of the earlier iterations (`Bool` result
`false`).  Otherwise all entries are enqueued in order (`true`). -/
def runStream (failAt : Option Nat) (request_id message : String) :
    List (Nat × StreamItem) → List Event × Bool
  | [] => ([], true)
  | (i, r) :: rest =>
      if failAt = some i then ([], false)
      else
        let tail := runStream failAt request_id message rest
        (stepEvent request_id message i r :: tail.1, tail.2)

/-- The method `SimpleAgentExecutor.execute` (lines 40-144) as the ordered list
of events it enqueues.  In order: the started status update (`running`, progress 0.1),
the initial processing message, the gathering status update (`running`, 0.3),
the enumerated streaming loop, and — only when no exception escaped the loop —
the final completion status update (`completed`, 1.0).  The `Bool` is `true`
iff the method body ran to completion. -/
def execute (failAt : Option Nat) (ctx : RequestContext) : List Event × Bool :=
  let message := contextMessage ctx
  let pre : List Event :=
    [Event.taskStatusUpdate ctx.request_id
       { state := "running", progress := 0.1, message := "Task started - analyzing request" },
     new_agent_text_message ("🤖 Processing your request: " ++ message),
     Event.taskStatusUpdate ctx.request_id
       { state := "running", progress := 0.3, message := "Gathering information..." }]
  let loop := runStream failAt ctx.request_id message ((streaming_responses message).enum)
  if loop.2 then
    (pre ++ loop.1 ++
      [Event.taskStatusUpdate ctx.request_id
        { state := "completed", progress := 1.0, message := "Task completed successfully" }],
     true)
  else (pre ++ loop.1, false)

/-- The events of a fault-free run of `execute`. -/
def executeEvents (ctx : RequestContext) : List Event :=
  (execute none ctx).1

/-- The method `SimpleAgentExecutor.cancel` (lines 146-148) as the list of
events it enqueues: a single agent text message. -/
def cancel (_ctx : RequestContext) : List Event :=
  [new_agent_text_message "Task cancelled"]

/-- The events `execute` emits in an environment where a cancellation request
has been delivered before step boundary `i` whenever `cancelRequestedBefore i`
is `true`.  The source method consults no cancellation signal anywhere — the
`RequestContext` it receives carries none, the executor object stores none,
and the body reads none — so the emitted events are those of the uncancelled
run, independent of the signal. -/
def executeUnderCancellation (_cancelRequestedBefore : Nat → Bool)
    (ctx : RequestContext) : List Event :=
  executeEvents ctx

/-- The event channel (the a2a `EventQueue`) as observed by a consumer: the
ordered events published to it so far and whether it has been closed. -/
structure EventChannel where
  events : List Event
  closed : Bool
deriving DecidableEq, Repr

/-- The method `SimpleAgentExecutor.cancel` acting on the event channel: its body only
enqueues the cancellation message; it never calls close, so the closed flag of
the channel is left untouched. -/
def cancelOn (ctx : RequestContext) (ch : EventChannel) : EventChannel :=
  { events := ch.events ++ cancel ctx, closed := ch.closed }

/-- Modelled from the spec: the channel close is not performed by any code
under `src/` — `execute` never closes its `EventQueue`; the spec assigns the
close to the event transport once the task reaches a terminal state ("Closed
exactly once, after the task reaches a terminal state").  `runTask` is a
fault-free execution followed by that close. -/
def runTask (ctx : RequestContext) : EventChannel :=
  { events := executeEvents ctx, closed := true }

/-- The status payload of a `task-status-update` event. -/
def statusOf : Event → Option TaskStatus
  | Event.taskStatusUpdate _ st => some st
  | _ => none

/-- The artifact payload of an `artifact-update` event. -/
def artifactOf : Event → Option ArtifactData
  | Event.artifactUpdate _ a => some a
  | _ => none

/-- The progress values carried by the status-update events of a trace, in
emission order. -/
def statusProgresses (evs : List Event) : List ℚ :=
  evs.filterMap (fun e => (statusOf e).map TaskStatus.progress)

/-- The states carried by the status-update events of a trace, in emission
order. -/
def statusStates (evs : List Event) : List String :=
  evs.filterMap (fun e => (statusOf e).map TaskStatus.state)

/-- The task state announced by the last status-update event of a trace. -/
def terminalStatusState (evs : List Event) : Option String :=
  (statusStates evs).getLast?

/-- Whether an event is a status update announcing a terminal state
(completed, cancelled or failed). -/
def isTerminalStatus (e : Event) : Bool :=
  match e with
  | Event.taskStatusUpdate _ st =>
      st.state == "completed" || st.state == "cancelled" || st.state == "failed"
  | _ => false

/-- Whether an event is a status update announcing the cancelled state. -/
def isCancelledStatus (e : Event) : Bool :=
  match e with
  | Event.taskStatusUpdate _ st => st.state == "cancelled"
  | _ => false

/-- Whether an event is a status update announcing the failed state. -/
def isFailedStatus (e : Event) : Bool :=
  match e with
  | Event.taskStatusUpdate _ st => st.state == "failed"
  | _ => false

/-- Whether an event is a status update of any kind. -/
def isStatusUpdate (e : Event) : Bool :=
  match e with
  | Event.taskStatusUpdate _ _ => true
  | _ => false

/-- Whether an event is an agent text message. -/
def isAgentMessage (e : Event) : Bool :=
  match e with
  | Event.agentTextMessage _ _ => true
  | _ => false

/-- The constructor shape of an event. -/
inductive EventKind where
  | status
  | message
  | artifact
deriving DecidableEq, Repr

/-- The shape of an event, forgetting its payload. -/
def eventKind : Event → EventKind
  | Event.taskStatusUpdate _ _ => EventKind.status
  | Event.agentTextMessage _ _ => EventKind.message
  | Event.artifactUpdate _ _ => EventKind.artifact

/-- The task id field carried by an event (optional on agent messages). -/
def eventTaskId : Event → Option String
  | Event.taskStatusUpdate tid _ => some tid
  | Event.agentTextMessage tid _ => tid
  | Event.artifactUpdate tid _ => some tid

/-- The twelve events of a fault-free `execute` run, written out. -/
def eventList (ctx : RequestContext) : List Event :=
  let message := contextMessage ctx
  let rid := ctx.request_id
  [Event.taskStatusUpdate rid
     { state := "running", progress := 0.1, message := "Task started - analyzing request" },
   new_agent_text_message ("🤖 Processing your request: " ++ message),
   Event.taskStatusUpdate rid
     { state := "running", progress := 0.3, message := "Gathering information..." },
   new_agent_text_message "🔍 I\x27m analyzing your request and gathering relevant context...",
   Event.taskStatusUpdate rid
     { state := "running", progress := 0.5, message := "Processing data..." },
   new_agent_text_message "📊 Found relevant information. Generating response...",
   Event.taskStatusUpdate rid
     { state := "running", progress := 0.7, message := "Crafting response..." },
   new_agent_text_message ("✨ **Response to \x27" ++ message ++ "\x27:**\n\nThis is a comprehensive answer that demonstrates the A2A protocol streaming capabilities. The agent can:\n\n• Process complex requests\n• Provide real-time updates\n• Stream responses progressively\n• Handle various message types"),
   Event.artifactUpdate rid
     { id := "artifact_5", name := "analysis_report.md", type := "text/markdown",
       content := "# Analysis Report\n\nRequest: " ++ message ++ "\n\nThis is a mock artifact generated by the A2A agent to demonstrate artifact streaming capabilities." },
   Event.taskStatusUpdate rid
     { state := "running", progress := 0.9, message := "Finalizing response..." },
   new_agent_text_message "✅ Task completed successfully! The agent has processed your request and provided a detailed response with streaming updates.",
   Event.taskStatusUpdate rid
     { state := "completed", progress := 1.0, message := "Task completed successfully" }]

/-- A fault-free run emits exactly the twelve events of `eventList`. -/
theorem executeEvents_eq (ctx : RequestContext) : executeEvents ctx = eventList ctx := rfl

/-- A run whose fault hits streaming step `j` (`j < 8`) aborts with the
exception escaping (`false`) after emitting exactly the first `3 + j` events
of the fault-free run. -/
theorem execute_fault (ctx : RequestContext) (j : Nat) (h : j < 8) :
    execute (some j) ctx = ((executeEvents ctx).take (3 + j), false) := by
  interval_cases j <;> rfl

/-- A concrete request context: `request_id` is `"task-1"`, no request
message attached (so the default message text is used). -/
def ctx0 : RequestContext :=
  { request_id := "task-1", requestMessage := none }

/-- Fault injection at an index absent from the enumerated list behaves like no
fault at all. -/
theorem runStream_of_not_mem (k : Nat) (rid msg : String) (l : List (Nat × StreamItem))
    (h : ∀ p ∈ l, p.1 ≠ k) :
    runStream (some k) rid msg l = runStream none rid msg l := by
  induction l with
  | nil => rfl
  | cons p rest ih =>
      obtain ⟨i, r⟩ := p
      have hik : ¬ ((some k : Option Nat) = some i) := by
        simp only [Option.some.injEq]
        intro hk
        exact h (i, r) (List.mem_cons_self _ _) (by omega)
      have hni : ¬ ((none : Option Nat) = some i) := by simp
      rw [runStream, runStream, if_neg hik, if_neg hni,
        ih (fun p hp => h p (List.mem_cons_of_mem _ hp))]

/-- A fault index at or beyond the eight streaming steps never fires: the run
is the fault-free one. -/
theorem execute_some_ge (ctx : RequestContext) (j : Nat) (h : 8 ≤ j) :
    execute (some j) ctx = execute none ctx := by
  have hmem : ∀ p ∈ (streaming_responses (contextMessage ctx)).enum, p.1 ≠ j := by
    intro p hp
    simp only [streaming_responses, List.enum, List.enumFrom, List.mem_cons,
      List.not_mem_nil, or_false] at hp
    rcases hp with rfl | rfl | rfl | rfl | rfl | rfl | rfl | rfl <;> simp <;> omega
  simp only [execute, runStream_of_not_mem j _ _ _ hmem]

/-- The progress/terminal shape of a fault-free run: progresses are chained
non-decreasing and the last one is 1.0 exactly as the terminal state is
completed. -/
theorem execute_none_progress (ctx : RequestContext) :
    List.Chain' (· ≤ ·) (statusProgresses (execute none ctx).1) ∧
    ((statusProgresses (execute none ctx).1).getLast? = some 1.0 ↔
      terminalStatusState (execute none ctx).1 = some "completed") := by
  constructor
  · rw [show statusProgresses (execute none ctx).1 = [0.1, 0.3, 0.5, 0.7, 0.9, 1.0] from rfl]
    norm_num [List.chain'_cons, List.chain'_singleton]
  · exact iff_of_true rfl rfl

/-- C1: in every task execution (any fault injection included), the progress
values carried by the status-update events, in emission order, are
non-decreasing, and they end at exactly 1.0 iff the terminal state announced
by the last status update is completed. -/
theorem C1_progress_monotone_terminal (failAt : Option Nat) (ctx : RequestContext) :
    List.Chain' (· ≤ ·) (statusProgresses (execute failAt ctx).1) ∧
    ((statusProgresses (execute failAt ctx).1).getLast? = some 1.0 ↔
      terminalStatusState (execute failAt ctx).1 = some "completed") := by
  rcases failAt with _ | j
  · exact execute_none_progress ctx
  · rcases Nat.lt_or_ge j 8 with hj | hj
    · refine ⟨?_, iff_of_false ?_ ?_⟩
      · interval_cases j
        · rw [show statusProgresses (execute (some 0) ctx).1 = [0.1, 0.3] from rfl]
          norm_num [List.chain'_cons, List.chain'_singleton]
        · rw [show statusProgresses (execute (some 1) ctx).1 = [0.1, 0.3] from rfl]
          norm_num [List.chain'_cons, List.chain'_singleton]
        · rw [show statusProgresses (execute (some 2) ctx).1 = [0.1, 0.3, 0.5] from rfl]
          norm_num [List.chain'_cons, List.chain'_singleton]
        · rw [show statusProgresses (execute (some 3) ctx).1 = [0.1, 0.3, 0.5] from rfl]
          norm_num [List.chain'_cons, List.chain'_singleton]
        · rw [show statusProgresses (execute (some 4) ctx).1 = [0.1, 0.3, 0.5, 0.7] from rfl]
          norm_num [List.chain'_cons, List.chain'_singleton]
        · rw [show statusProgresses (execute (some 5) ctx).1 = [0.1, 0.3, 0.5, 0.7] from rfl]
          norm_num [List.chain'_cons, List.chain'_singleton]
        · rw [show statusProgresses (execute (some 6) ctx).1 = [0.1, 0.3, 0.5, 0.7] from rfl]
          norm_num [List.chain'_cons, List.chain'_singleton]
        · rw [show statusProgresses (execute (some 7) ctx).1 = [0.1, 0.3, 0.5, 0.7, 0.9] from rfl]
          norm_num [List.chain'_cons, List.chain'_singleton]
      · interval_cases j
        · rw [show (statusProgresses (execute (some 0) ctx).1).getLast? = some 0.3 from rfl]
          simp only [ne_eq, Option.some.injEq]
          norm_num
        · rw [show (statusProgresses (execute (some 1) ctx).1).getLast? = some 0.3 from rfl]
          simp only [ne_eq, Option.some.injEq]
          norm_num
        · rw [show (statusProgresses (execute (some 2) ctx).1).getLast? = some 0.5 from rfl]
          simp only [ne_eq, Option.some.injEq]
          norm_num
        · rw [show (statusProgresses (execute (some 3) ctx).1).getLast? = some 0.5 from rfl]
          simp only [ne_eq, Option.some.injEq]
          norm_num
        · rw [show (statusProgresses (execute (some 4) ctx).1).getLast? = some 0.7 from rfl]
          simp only [ne_eq, Option.some.injEq]
          norm_num
        · rw [show (statusProgresses (execute (some 5) ctx).1).getLast? = some 0.7 from rfl]
          simp only [ne_eq, Option.some.injEq]
          norm_num
        · rw [show (statusProgresses (execute (some 6) ctx).1).getLast? = some 0.7 from rfl]
          simp only [ne_eq, Option.some.injEq]
          norm_num
        · rw [show (statusProgresses (execute (some 7) ctx).1).getLast? = some 0.9 from rfl]
          simp only [ne_eq, Option.some.injEq]
          norm_num
      · have hterm : terminalStatusState (execute (some j) ctx).1 = some "running" := by
          interval_cases j <;> rfl
        rw [hterm]
        decide
    · rw [execute_some_ge ctx j hj]
      exact execute_none_progress ctx

/-- C2: a task execution emits exactly one terminal status update (state
completed, cancelled or failed), it is the final completed one, it is the last
event emitted, and the cancel handler emits no terminal status update
either. -/
theorem C2_unique_terminal_is_last (ctx : RequestContext) :
    (executeEvents ctx).countP isTerminalStatus = 1 ∧
    (executeEvents ctx).getLast? =
      some (Event.taskStatusUpdate ctx.request_id
        { state := "completed", progress := 1.0, message := "Task completed successfully" }) ∧
    (cancel ctx).countP isTerminalStatus = 0 :=
  ⟨rfl, rfl, rfl⟩

/-- C3 counterexample: inject an exception while the executor produces the
content of streaming step 1 (the second step) of the run on `ctx0`.  The
method body does not run to completion — the exception escapes the executor
boundary instead of being caught — no failed status update is ever emitted,
and only the four events preceding the fault are on the channel.  This
refutes the claim that such an exception is caught and converted into a
Failed status update. -/
theorem C3_counterexample :
    (execute (some 1) ctx0).2 = false ∧
    List.countP isFailedStatus (execute (some 1) ctx0).1 = 0 ∧
    (execute (some 1) ctx0).1.length = 4 :=
  ⟨rfl, rfl, rfl⟩

/-- C3 amended: an exception raised while producing the content of any
streaming step `j` propagates out of `execute` uncaught (the body does not
complete), no Failed status update is emitted, and the events on the channel
are exactly the ones emitted before the faulting step — no events for the
faulting or subsequent steps appear. -/
theorem C3_exception_propagates (ctx : RequestContext) (j : Nat) (h : j < 8) :
    (execute (some j) ctx).2 = false ∧
    List.countP isFailedStatus (execute (some j) ctx).1 = 0 ∧
    (execute (some j) ctx).1 = (executeEvents ctx).take (3 + j) := by
  interval_cases j <;> exact ⟨rfl, rfl, rfl⟩

/-- C3 witness: the amended statement instantiated at `ctx0` with the fault on
streaming step 2. -/
theorem C3_exception_propagates_witness :
    (2 : Nat) < 8 ∧
    ((execute (some 2) ctx0).2 = false ∧
      List.countP isFailedStatus (execute (some 2) ctx0).1 = 0 ∧
      (execute (some 2) ctx0).1 = (executeEvents ctx0).take (3 + 2)) :=
  ⟨by decide, C3_exception_propagates ctx0 2 (by decide)⟩

/-- C4 counterexample: deliver a cancellation request before every step
boundary of the run on `ctx0`.  The executor's emitted events are exactly
those of the uncancelled run, the task still terminates in state completed
(the claim says it must never complete), and no cancelled status update is
ever emitted by `execute` or by `cancel`. -/
theorem C4_counterexample :
    executeUnderCancellation (fun _ => true) ctx0 = executeEvents ctx0 ∧
    terminalStatusState (executeUnderCancellation (fun _ => true) ctx0) = some "completed" ∧
    List.countP isCancelledStatus
      (executeUnderCancellation (fun _ => true) ctx0 ++ cancel ctx0) = 0 :=
  ⟨rfl, rfl, rfl⟩

/-- C4 amended: a cancellation request makes `cancel` enqueue a single message
noting the cancellation, but it does not affect the task: the executor's
events are unchanged, the task still ends in state completed (never
cancelled), no cancelled status update is ever emitted, and `cancel` leaves
the channel's closed flag untouched. -/
theorem C4_cancellation_ignored (cancelRequestedBefore : Nat → Bool)
    (ctx : RequestContext) (ch : EventChannel) :
    cancel ctx = [Event.agentTextMessage none "Task cancelled"] ∧
    executeUnderCancellation cancelRequestedBefore ctx = executeEvents ctx ∧
    terminalStatusState (executeUnderCancellation cancelRequestedBefore ctx) = some "completed" ∧
    List.countP isCancelledStatus
      (executeUnderCancellation cancelRequestedBefore ctx ++ cancel ctx) = 0 ∧
    (cancelOn ctx ch).closed = ch.closed :=
  ⟨rfl, rfl, rfl, rfl, rfl⟩

/-- C5 counterexample: the first event of the run on `ctx0` is the started
status update whose progress is 0.1, and 0.1 is not 0.0 — refuting the claim
that the first emitted status update carries progress exactly 0.0. -/
theorem C5_counterexample :
    (executeEvents ctx0).head? =
      some (Event.taskStatusUpdate "task-1"
        { state := "running", progress := 0.1, message := "Task started - analyzing request" }) ∧
    ¬ ((0.1 : ℚ) = 0.0) :=
  ⟨rfl, by norm_num⟩

/-- C5 amended: the first event the executor emits is a status update with
state running and progress exactly 0.1. -/
theorem C5_first_event_running (ctx : RequestContext) :
    (executeEvents ctx).head? =
      some (Event.taskStatusUpdate ctx.request_id
        { state := "running", progress := 0.1, message := "Task started - analyzing request" }) :=
  rfl

/-- C6 counterexample: the second event of the run on `ctx0` is an agent text
message built by `new_agent_text_message`, which carries no task id at all —
refuting the claim that every emitted event carries a `taskId` equal to the
task's id. -/
theorem C6_counterexample :
    Event.agentTextMessage none
        "🤖 Processing your request: Hello World from A2A Agent!" ∈ executeEvents ctx0 ∧
    eventTaskId (Event.agentTextMessage none
        "🤖 Processing your request: Hello World from A2A Agent!") ≠ some ctx0.request_id := by
  constructor
  · decide
  · decide

/-- C6 amended: every status-update and artifact-update event of a run carries
a `taskId` equal to the context's `request_id`; the agent text messages carry
no task id (their `task_id` field is empty). -/
theorem C6_taskId_coverage (ctx : RequestContext) (e : Event)
    (he : e ∈ executeEvents ctx) :
    eventTaskId e = some ctx.request_id ∨
      (eventKind e = EventKind.message ∧ eventTaskId e = none) := by
  rw [executeEvents_eq] at he
  simp only [eventList, new_agent_text_message, List.mem_cons, List.not_mem_nil,
    or_false] at he
  rcases he with rfl | rfl | rfl | rfl | rfl | rfl | rfl | rfl | rfl | rfl | rfl | rfl <;>
    simp [eventTaskId, eventKind]

/-- C6 witness: the amended statement instantiated at `ctx0` and the first
agent text message of its run. -/
theorem C6_taskId_coverage_witness :
    (Event.agentTextMessage none
        "🤖 Processing your request: Hello World from A2A Agent!" ∈ executeEvents ctx0) ∧
    (eventTaskId (Event.agentTextMessage none
        "🤖 Processing your request: Hello World from A2A Agent!") = some ctx0.request_id ∨
      (eventKind (Event.agentTextMessage none
          "🤖 Processing your request: Hello World from A2A Agent!") = EventKind.message ∧
        eventTaskId (Event.agentTextMessage none
          "🤖 Processing your request: Hello World from A2A Agent!") = none)) :=
  ⟨by decide, C6_taskId_coverage ctx0 _ (by decide)⟩

/-- C7 counterexample: with a cancellation request pending before every step
boundary of the run on `ctx0`, the executor emits exactly the events of the
run with no request pending — all twelve of them, with no cancelled status —
so no step boundary checks the signal. -/
theorem C7_counterexample :
    executeUnderCancellation (fun _ => true) ctx0 =
      executeUnderCancellation (fun _ => false) ctx0 ∧
    (executeUnderCancellation (fun _ => true) ctx0).length = 12 ∧
    List.countP isCancelledStatus (executeUnderCancellation (fun _ => true) ctx0) = 0 :=
  ⟨rfl, rfl, rfl⟩

/-- C7 amended: the executor checks for a cancellation signal at no step
boundary: the events it emits are independent of the signal, every run ends in
state completed, and no cancelled status update is ever emitted, so a
cancellation requested mid-task is never observed. -/
theorem C7_no_cancellation_check (c c' : Nat → Bool) (ctx : RequestContext) :
    executeUnderCancellation c ctx = executeUnderCancellation c' ctx ∧
    List.countP isCancelledStatus (executeUnderCancellation c ctx) = 0 ∧
    terminalStatusState (executeUnderCancellation c ctx) = some "completed" :=
  ⟨rfl, rfl, rfl⟩

/-- C8: when a task finishes successfully, the last event emitted is the
status update with state completed and progress exactly 1.0, and afterwards
the channel is closed (the close itself is performed by the event transport
once the executor returns, modelled from the spec in `runTask`). -/
theorem C8_last_event_completed (ctx : RequestContext) :
    (runTask ctx).events.getLast? =
      some (Event.taskStatusUpdate ctx.request_id
        { state := "completed", progress := 1.0, message := "Task completed successfully" }) ∧
    (runTask ctx).closed = true :=
  ⟨rfl, rfl⟩

/-- C9 counterexample: the run on `ctx0` enqueues twelve events — not
thirteen — and five agent text messages — not six. -/
theorem C9_counterexample :
    (executeEvents ctx0).length = 12 ∧
    (executeEvents ctx0).length ≠ 13 ∧
    List.countP isAgentMessage (executeEvents ctx0) = 5 :=
  ⟨rfl, by decide, rfl⟩

/-- C9 amended: every run enqueues exactly twelve events in a fixed
constructor order independent of the input message (only embedded text
varies): six status updates with progress values 0.1, 0.3, 0.5, 0.7, 0.9,
1.0 in that order, five agent text messages, and exactly one artifact-update
event with artifact id "artifact_5", name "analysis_report.md" and type
"text/markdown". -/
theorem C9_event_census (ctx : RequestContext) :
    (executeEvents ctx).length = 12 ∧
    (executeEvents ctx).map eventKind =
      [EventKind.status, EventKind.message, EventKind.status, EventKind.message,
       EventKind.status, EventKind.message, EventKind.status, EventKind.message,
       EventKind.artifact, EventKind.status, EventKind.message, EventKind.status] ∧
    statusProgresses (executeEvents ctx) = [0.1, 0.3, 0.5, 0.7, 0.9, 1.0] ∧
    List.countP isAgentMessage (executeEvents ctx) = 5 ∧
    ((executeEvents ctx).filterMap artifactOf).map (fun a => (a.id, a.name, a.type)) =
      [("artifact_5", "analysis_report.md", "text/markdown")] :=
  ⟨rfl, rfl, rfl, rfl, rfl⟩

/-- C10: the cancel handler enqueues exactly one event — an agent text message
with text "Task cancelled" — which is not a status update of any kind, and it
leaves the channel's closed flag untouched. -/
theorem C10_cancel_single_message (ctx : RequestContext) (ch : EventChannel) :
    cancel ctx = [Event.agentTextMessage none "Task cancelled"] ∧
    List.countP isStatusUpdate (cancel ctx) = 0 ∧
    (cancelOn ctx ch).events = ch.events ++ [Event.agentTextMessage none "Task cancelled"] ∧
    (cancelOn ctx ch).closed = ch.closed :=
  ⟨rfl, rfl, rfl, rfl⟩
